import Mathlib

/-!
Verification of the KernelF load-policy control plane.

A shallow embedding of the two source files of the repository:

* `src/build_policy.c` — the adaptive optimizer (`optimize_cpu_performance`),
  its hotplug callback, and the module init/exit paths;
* `src/hmbird_sched_proc_main.c` — the proc-based tunable registry
  (`set_proc_buf_val` / `hmbird_common_write`, built on the kernel
  helpers `strstrip` + `kstrtoint`) and the composite stats report
  (`hmbird_stats_proc_show`).

Machine integers are modelled as `Nat`/`Int` with explicit reduction
modulo `2^64` where the C code computes in `u64`.
-/

/-- The `2^64`, the modulus of the C `u64` type. -/
def u64size : Nat := 18446744073709551616

/-- Wrap-around subtraction of two `u64` values (the C expression
`current_time - last_optimization_time` with both operands `u64`). -/
def uSub (a b : Nat) : Nat := (a % u64size + (u64size - b % u64size)) % u64size

/-- Conversion of a C `int` value to `u64` (the implicit conversion in
`load_balance_interval * 1000000ULL`). -/
def intToU64 (i : Int) : Nat := (i.emod (2 ^ 64)).toNat

/-- One per-cpu runqueue, restricted to the two fields the sources read:
`rq->nr_running` and `rq->nr_switches` (both C `unsigned long` = `u64`). -/
structure Rq where
  nr_running : Nat
  nr_switches : Nat

/-- The host system as the sources observe it: the list of online cpu ids in
`for_each_online_cpu` iteration order, and the `cpu_rq` table (defined on
every cpu id, online or not, exactly as `cpu_rq(i)` is in C). -/
structure System where
  online : List Nat
  rq : Nat → Rq

/-- The four module-level globals of `src/build_policy.c`:
`policy_optimization_enabled`, `cpu_performance_threshold`,
`load_balance_interval`, `last_optimization_time`. -/
structure PolicyState where
  enabled : Bool
  cpu_performance_threshold : Int
  load_balance_interval : Int
  last_optimization_time : Nat
deriving DecidableEq, Repr

/-- Static initializers of the globals in `src/build_policy.c`
(lines 82-85): `true`, `80`, `100`, `0`. -/
def initialPolicyState : PolicyState :=
  { enabled := true
    cpu_performance_threshold := 80
    load_balance_interval := 100
    last_optimization_time := 0 }

/-- Result of one call to `optimize_cpu_performance`: the globals after the
call, the cpus kicked by `smp_call_function_single` in the rebalance fan-out,
and the cpus named in the per-cpu "overloaded" diagnostic printk. -/
structure OptResult where
  state : PolicyState
  kicked : List Nat
  overloaded : List Nat
deriving DecidableEq, Repr

/-- The gate threshold `load_balance_interval * 1000000ULL` as computed in
u64 arithmetic. -/
def gateLimit (interval : Int) : Nat := intToU64 interval * 1000000 % u64size

/-- The `total_load` as accumulated in the C loop: a u64 running sum of
`rq->nr_running` over the online cpus. -/
def sumLoadU64 (sys : System) : Nat :=
  sys.online.foldl (fun acc c => (acc + (sys.rq c).nr_running) % u64size) 0

/-- The same sum without the u64 wrap, for stating claims. -/
def sumLoad (sys : System) : Nat :=
  sys.online.foldl (fun acc c => acc + (sys.rq c).nr_running) 0

/-- u64 running sum of `rq->nr_switches` over the online cpus (used by the
stats report). -/
def sumSwitchU64 (sys : System) : Nat :=
  sys.online.foldl (fun acc c => (acc + (sys.rq c).nr_switches) % u64size) 0

/-- The `optimize_cpu_performance` (src/build_policy.c lines 87-133).

Inputs beyond the globals: `sys` (the online cpus and their runqueues),
`current_time` (the `sched_clock()` reading), `self` (`smp_processor_id()`).

The single C loop accumulates `total_load` and sets `need_rebalance` while
printing a diagnostic for each overloaded cpu; here the three results of
that loop are written as a fold, an `any` and a `filter` over the same
list, which traverse it in the same order. -/
def optimize_cpu_performance (sys : System) (current_time self : Nat)
    (st : PolicyState) : OptResult :=
  let online_cpus := sys.online.length
  -- Rate limit optimization calls
  if uSub current_time st.last_optimization_time < gateLimit st.load_balance_interval then
    ⟨st, [], []⟩
  else
    let total_load := sumLoadU64 sys
    let need_rebalance := sys.online.any (fun c => decide (online_cpus * 2 < (sys.rq c).nr_running))
    let overloaded := sys.online.filter (fun c => decide (online_cpus * 2 < (sys.rq c).nr_running))
    -- Trigger load balancing if needed
    let kicked :=
      if need_rebalance && st.enabled then
        sys.online.filter (fun c => decide (c ≠ self))
      else []
    -- Adaptive threshold adjustment
    let new_threshold :=
      if online_cpus * 3 < total_load then
        min (st.cpu_performance_threshold + 5) 95
      else if total_load < online_cpus then
        max (st.cpu_performance_threshold - 5) 50
      else st.cpu_performance_threshold
    { state := { st with
                  last_optimization_time := current_time % u64size
                  cpu_performance_threshold := new_threshold }
      kicked := kicked
      overloaded := overloaded }

/-- The `CPU_ONLINE` (kernel cpu notifier action). -/
def CPU_ONLINE : Nat := 2
/-- The `CPU_DOWN_PREPARE` (kernel cpu notifier action). -/
def CPU_DOWN_PREPARE : Nat := 5
/-- The `CPU_TASKS_FROZEN` flag bit. -/
def CPU_TASKS_FROZEN : Nat := 16

/-- The C expression `action & ~CPU_TASKS_FROZEN`: clear the frozen bit. -/
def clearFrozen (action : Nat) : Nat := action - (action &&& CPU_TASKS_FROZEN)

/-- The `policy_cpu_callback` (src/build_policy.c lines 135-156): both the
`CPU_ONLINE` and `CPU_DOWN_PREPARE` cases invoke the optimizer (after a
diagnostic printk); every other action is a no-op. The notifier always
returns `NOTIFY_OK`. -/
def policy_cpu_callback (sys : System) (current_time self action : Nat)
    (st : PolicyState) : OptResult :=
  let a := clearFrozen action
  if a = CPU_ONLINE then optimize_cpu_performance sys current_time self st
  else if a = CPU_DOWN_PREPARE then optimize_cpu_performance sys current_time self st
  else ⟨st, [], []⟩

/-- The `build_policy_init` (src/build_policy.c lines 163-200), success path of
notifier registration: set the threshold/interval from the three-tier table
keyed by `num_online_cpus()`, then perform the initial
`optimize_cpu_performance()` call at clock reading `init_time`. -/
def build_policy_init (sys : System) (init_time self : Nat)
    (st : PolicyState) : OptResult :=
  let online_cpus := sys.online.length
  let st1 :=
    if 8 ≤ online_cpus then
      { st with cpu_performance_threshold := 85, load_balance_interval := 50 }
    else if 4 ≤ online_cpus then
      { st with cpu_performance_threshold := 75, load_balance_interval := 75 }
    else
      { st with cpu_performance_threshold := 70, load_balance_interval := 100 }
  optimize_cpu_performance sys init_time self st1

/-- The `build_policy_exit` (src/build_policy.c lines 202-216): clear
`policy_optimization_enabled`, then run one final optimizer pass. -/
def build_policy_exit (sys : System) (exit_time self : Nat)
    (st : PolicyState) : OptResult :=
  optimize_cpu_performance sys exit_time self { st with enabled := false }

/-!
src/hmbird_sched_proc_main.c — the tunable write path

`set_proc_buf_val` copies at most 4 user bytes into a zeroed 5-byte stack
buffer and runs `kstrtoint(strstrip(kbuf), 0, val)`. The helpers below model
the kernel library functions it calls: `strstrip` (lib/string.c) and
`kstrtoint` with base 0, i.e. auto-detected radix (lib/kstrtox.c).
-/

/-- Magnitude of the C error code EFAULT. -/
def EFAULT : Int := 14
/-- Magnitude of the C error code EINVAL. -/
def EINVAL : Int := 22
/-- Magnitude of the C error code ERANGE. -/
def ERANGE : Int := 34

/-- The C `isspace` class used by `strstrip`. -/
def isSpaceC (c : Char) : Bool :=
  c == ' ' || c == '\t' || c == '\n' || c == '\x0b' || c == '\x0c' || c == '\x0d'

/-- The `strstrip`: remove leading and trailing whitespace. -/
def strstrip (s : List Char) : List Char :=
  ((s.dropWhile isSpaceC).reverse.dropWhile isSpaceC).reverse

/-- Reading a byte buffer as a C string: the characters before the first
NUL. (`kbuf` is zero-initialized, so the copied bytes are NUL-terminated.) -/
def cString (s : List Char) : List Char :=
  s.takeWhile (fun c => decide (c ≠ Char.ofNat 0))

/-- ASCII decimal digit test. -/
def isDigitC (c : Char) : Bool := 48 ≤ c.toNat && c.toNat ≤ 57

/-- The C `isxdigit` class. -/
def isXDigitC (c : Char) : Bool :=
  isDigitC c || (97 ≤ c.toNat && c.toNat ≤ 102) || (65 ≤ c.toNat && c.toNat ≤ 70)

/-- Value of a hexadecimal digit character. -/
def digitVal (c : Char) : Nat :=
  if isDigitC c then c.toNat - 48
  else if 97 ≤ c.toNat then c.toNat - 87
  else c.toNat - 55

/-- State returned by `_parse_integer`: number of digits consumed, the
accumulated u64 value, the overflow flag, and the unconsumed suffix. -/
structure ParseAcc where
  cnt : Nat
  val : Nat
  ovf : Bool
  rest : List Char
deriving DecidableEq, Repr

/-- The `_parse_integer` (lib/kstrtox.c): consume digits of the given base,
accumulating in wrapping u64 arithmetic and flagging overflow. -/
def parse_integer (base : Nat) : List Char → Nat → Nat → Bool → ParseAcc
  | [], cnt, val, ovf => ⟨cnt, val, ovf, []⟩
  | c :: rest, cnt, val, ovf =>
    if isXDigitC c && decide (digitVal c < base) then
      parse_integer base rest (cnt + 1) ((val * base + digitVal c) % u64size)
        (ovf || decide (u64size ≤ val * base + digitVal c))
    else ⟨cnt, val, ovf, c :: rest⟩

/-- The `_parse_integer_fixup_radix` for base 0: a leading `0x` with a following
hex digit selects base 16 (skipping the prefix), any other leading `0`
selects base 8, and anything else selects base 10. -/
def fixupRadix (s : List Char) : Nat × List Char :=
  match s with
  | [] => (10, [])
  | c0 :: rest =>
    if c0 = '0' then
      match rest with
      | c1 :: c2 :: rest2 =>
        if (c1 == 'x' || c1 == 'X') && isXDigitC c2 then (16, c2 :: rest2)
        else (8, c0 :: rest)
      | _ => (8, c0 :: rest)
    else (10, c0 :: rest)

/-- The `_kstrtoull` with base 0: fix up the radix, consume digits, then demand
no overflow, at least one digit, and nothing after the digits except an
optional final newline. -/
def kstrtoullCore (s : List Char) : Except Int Nat :=
  let br := fixupRadix s
  let p := parse_integer br.1 br.2 0 0 false
  if p.ovf then Except.error (-ERANGE)
  else if p.cnt = 0 then Except.error (-EINVAL)
  else if p.rest = [] then Except.ok p.val
  else if p.rest = ['\n'] then Except.ok p.val
  else Except.error (-EINVAL)

/-- The `kstrtoull`: an optional leading `+`, then `_kstrtoull`. -/
def kstrtoull (s : List Char) : Except Int Nat :=
  match s with
  | c :: rest => if c = '+' then kstrtoullCore rest else kstrtoullCore (c :: rest)
  | [] => kstrtoullCore []

/-- The `kstrtoll`: a leading `-` negates the `_kstrtoull` value (bounded by
`-LLONG_MIN`); otherwise the `kstrtoull` value bounded by `LLONG_MAX`. -/
def kstrtoll (s : List Char) : Except Int Int :=
  match s with
  | c :: rest =>
    if c = '-' then
      match kstrtoullCore rest with
      | Except.error e => Except.error e
      | Except.ok v => if 2 ^ 63 < v then Except.error (-ERANGE) else Except.ok (-(v : Int))
    else
      match kstrtoull (c :: rest) with
      | Except.error e => Except.error e
      | Except.ok v => if 2 ^ 63 - 1 < v then Except.error (-ERANGE) else Except.ok (v : Int)
  | [] =>
    match kstrtoull [] with
    | Except.error e => Except.error e
    | Except.ok v => if 2 ^ 63 - 1 < v then Except.error (-ERANGE) else Except.ok (v : Int)

/-- The `kstrtoint`: `kstrtoll` further bounded to the C `int` range. -/
def kstrtoint (s : List Char) : Except Int Int :=
  match kstrtoll s with
  | Except.error e => Except.error e
  | Except.ok v =>
    if v < -(2 ^ 31) ∨ 2 ^ 31 - 1 < v then Except.error (-ERANGE) else Except.ok v

/-- The base-10 reading of a digit string: the value that the phrase
"parses as a base-10 integer" in the specification refers to. -/
def decimalValue (ds : List Char) : Nat :=
  ds.foldl (fun a c => a * 10 + (c.toNat - 48)) 0

/-- The `set_proc_buf_val` (src/hmbird_sched_proc_main.c lines 53-73). Returns
`(return code, stored value after the call)`; `input` is the user buffer,
`count` the byte count, `copyFails` whether `copy_from_user` fails, and
`val` the current value of the tunable cell. -/
def set_proc_buf_val (count : Nat) (input : List Char) (copyFails : Bool)
    (val : Int) : Int × Int :=
  if 5 ≤ count then (-EFAULT, val)
  else if copyFails then (-EFAULT, val)
  else
    match kstrtoint (strstrip (cString (input.take count))) with
    | Except.ok v => (0, v)
    | Except.error _ => (-EFAULT, val)

/-- The `hmbird_common_write` (src/hmbird_sched_proc_main.c lines 76-86):
`-EFAULT` when `set_proc_buf_val` fails, otherwise the byte count. -/
def hmbird_common_write (count : Nat) (input : List Char) (copyFails : Bool)
    (val : Int) : Int × Int :=
  let r := set_proc_buf_val count input copyFails val
  if r.1 ≠ 0 then (-EFAULT, r.2) else ((count : Int), r.2)

/-- The `scx_enable_proc_write` (lines 102-111): byte-identical body to
`hmbird_common_write`. -/
def scx_enable_proc_write (count : Nat) (input : List Char) (copyFails : Bool)
    (val : Int) : Int × Int :=
  hmbird_common_write count input copyFails val

/-- The `sched_ravg_window_frame_per_sec_proc_write` (lines 243-252):
byte-identical body to `hmbird_common_write`. -/
def sched_ravg_window_frame_per_sec_proc_write (count : Nat) (input : List Char)
    (copyFails : Bool) (val : Int) : Int × Int :=
  hmbird_common_write count input copyFails val

/-- The `cpu_cluster_proc_write` (lines 272-281): byte-identical body to
`hmbird_common_write`. -/
def cpu_cluster_proc_write (count : Nat) (input : List Char) (copyFails : Bool)
    (val : Int) : Int × Int :=
  hmbird_common_write count input copyFails val

/-- The `slim_walt_ctrl_write` (lines 285-294): byte-identical body to
`hmbird_common_write`. -/
def slim_walt_ctrl_write (count : Nat) (input : List Char) (copyFails : Bool)
    (val : Int) : Int × Int :=
  hmbird_common_write count input copyFails val

/-- The `save_gov_str` (lines 257-269): iterates present cpus without storing
anything, then reports the full byte count as consumed. The stored value is
untouched and no input byte is examined. -/
def save_gov_str (count : Nat) (val : Int) : Int × Int :=
  ((count : Int), val)

/-!
src/hmbird_sched_proc_main.c — tunable cells, registry, stats report
-/

/-- The tunable global variables of `src/hmbird_sched_proc_main.c`
(lines 20-49). The C global `partial_enable` is named `part_enable` here.
`highres_tick_ctrl`, `highres_tick_ctrl_dbg` and `cpu_cluster_masks` are
C `unsigned int` but are read and written through `int *` by the proc
handlers, so all cells are modelled as `Int`. -/
structure Tunables where
  scx_enable : Int
  part_enable : Int
  cpuctrl_high_ratio : Int
  cpuctrl_low_ratio : Int
  slim_stats : Int
  hmbirdcore_debug : Int
  slim_for_app : Int
  misfit_ds : Int
  highres_tick_ctrl : Int
  highres_tick_ctrl_dbg : Int
  cpu7_tl : Int
  slim_walt_ctrl : Int
  slim_walt_dump : Int
  slim_walt_policy : Int
  slim_gov_debug : Int
  scx_gov_ctrl : Int
  sched_ravg_window_frame_per_sec : Int
  parctrl_high_ratio : Int
  parctrl_low_ratio : Int
  parctrl_high_ratio_l : Int
  parctrl_low_ratio_l : Int
  isoctrl_high_ratio : Int
  isoctrl_low_ratio : Int
  isolate_ctrl : Int
  iso_free_rescue : Int
  heartbeat : Int
  heartbeat_enable : Int
  watchdog_enable : Int
  save_gov : Int
  cpu_cluster_masks : Int

/-- Static initializers of the tunable globals (lines 20-49). -/
def initialTunables : Tunables :=
  { scx_enable := 0
    part_enable := 0
    cpuctrl_high_ratio := 55
    cpuctrl_low_ratio := 40
    slim_stats := 0
    hmbirdcore_debug := 0
    slim_for_app := 0
    misfit_ds := 90
    highres_tick_ctrl := 0
    highres_tick_ctrl_dbg := 0
    cpu7_tl := 70
    slim_walt_ctrl := 0
    slim_walt_dump := 0
    slim_walt_policy := 0
    slim_gov_debug := 0
    scx_gov_ctrl := 1
    sched_ravg_window_frame_per_sec := 125
    parctrl_high_ratio := 55
    parctrl_low_ratio := 40
    parctrl_high_ratio_l := 65
    parctrl_low_ratio_l := 50
    isoctrl_high_ratio := 75
    isoctrl_low_ratio := 60
    isolate_ctrl := 0
    iso_free_rescue := 0
    heartbeat := 0
    heartbeat_enable := 0
    watchdog_enable := 0
    save_gov := 0
    cpu_cluster_masks := 0 }

/-- One constructor per mutable global cell that some external interface can
be wired to: the tunables of `src/hmbird_sched_proc_main.c` plus the three
module-parameter globals of `src/build_policy.c`. -/
inductive Cell where
  | scx_enable
  | part_enable
  | cpuctrl_high_ratio
  | cpuctrl_low_ratio
  | slim_stats
  | hmbirdcore_debug
  | slim_for_app
  | misfit_ds
  | highres_tick_ctrl
  | highres_tick_ctrl_dbg
  | cpu7_tl
  | slim_walt_ctrl
  | slim_walt_dump
  | slim_walt_policy
  | slim_gov_debug
  | scx_gov_ctrl
  | sched_ravg_window_frame_per_sec
  | parctrl_high_ratio
  | parctrl_low_ratio
  | parctrl_high_ratio_l
  | parctrl_low_ratio_l
  | isoctrl_high_ratio
  | isoctrl_low_ratio
  | isolate_ctrl
  | iso_free_rescue
  | heartbeat
  | heartbeat_enable
  | watchdog_enable
  | save_gov
  | cpu_cluster_masks
  | policy_optimization_enabled
  | cpu_performance_threshold
  | load_balance_interval
deriving DecidableEq, Repr

/-- The proc entries registered by `hmbird_proc_init`
(src/hmbird_sched_proc_main.c lines 299-486), in registration order:
entry name paired with the global cell passed as its data. The read-only
`hmbird_stats` entry carries no data cell and is not listed. -/
def hmbird_registry : List (String × Cell) :=
  [("scx_enable", Cell.scx_enable),
   ("partial_ctrl", Cell.part_enable),
   ("cpuctrl_high", Cell.cpuctrl_high_ratio),
   ("cpuctrl_low", Cell.cpuctrl_low_ratio),
   ("slim_stats", Cell.slim_stats),
   ("hmbirdcore_debug", Cell.hmbirdcore_debug),
   ("slim_for_app", Cell.slim_for_app),
   ("misfit_ds", Cell.misfit_ds),
   ("scx_shadow_tick_enable", Cell.highres_tick_ctrl),
   ("highres_tick_ctrl_dbg", Cell.highres_tick_ctrl_dbg),
   ("cpu7_tl", Cell.cpu7_tl),
   ("cpu_cluster_masks", Cell.cpu_cluster_masks),
   ("save_gov", Cell.save_gov),
   ("heartbeat", Cell.heartbeat),
   ("heartbeat_enable", Cell.heartbeat_enable),
   ("watchdog_enable", Cell.watchdog_enable),
   ("isolate_ctrl", Cell.isolate_ctrl),
   ("parctrl_high_ratio", Cell.parctrl_high_ratio),
   ("parctrl_low_ratio", Cell.parctrl_low_ratio),
   ("isoctrl_high_ratio", Cell.isoctrl_high_ratio),
   ("isoctrl_low_ratio", Cell.isoctrl_low_ratio),
   ("iso_free_rescue", Cell.iso_free_rescue),
   ("parctrl_high_ratio_l", Cell.parctrl_high_ratio_l),
   ("parctrl_low_ratio_l", Cell.parctrl_low_ratio_l),
   ("slim_walt_ctrl", Cell.slim_walt_ctrl),
   ("slim_walt_dump", Cell.slim_walt_dump),
   ("slim_walt_policy", Cell.slim_walt_policy),
   ("frame_per_sec", Cell.sched_ravg_window_frame_per_sec),
   ("slim_gov_debug", Cell.slim_gov_debug),
   ("scx_gov_ctrl", Cell.scx_gov_ctrl)]

/-- The `module_param` declarations of `src/build_policy.c` (lines 226-233):
parameter name, backing cell, and sysfs permission mode (all `0644`, i.e.
world-readable and owner-writable). -/
def build_policy_module_params : List (String × Cell × Nat) :=
  [("policy_optimization_enabled", Cell.policy_optimization_enabled, 0o644),
   ("cpu_performance_threshold", Cell.cpu_performance_threshold, 0o644),
   ("load_balance_interval", Cell.load_balance_interval, 0o644)]

/-- The `avg_load_per_cpu` computation of `hmbird_stats_proc_show`
(lines 124-135): initialized to 0 and assigned `total / online` only when
`online_cpus > 0`, so the division is guarded. -/
def avgLoad (sys : System) : Nat :=
  if 0 < sys.online.length then sumLoadU64 sys / sys.online.length else 0

/-- One `gdsq_cnt[i]` report line (lines 148-155). -/
def gdsqLine (sys : System) (nr_cpus i : Nat) : String × List Int :=
  if i < sys.online.length ∧ i < nr_cpus then
    ("gdsq_cnt[" ++ toString i ++ "]",
      [((sys.rq i).nr_running : Int), (((sys.rq i).nr_switches &&& 65535 : Nat) : Int)])
  else ("gdsq_cnt[" ++ toString i ++ "]", [0, 0])

/-- One `pcp_timeout_cnt[i]` report line (lines 160-168). -/
def pcpTimeoutLine (current_time : Nat) (sys : System) (nr_cpus i : Nat) :
    String × List Int :=
  if i < sys.online.length ∧ i < nr_cpus then
    ("pcp_timeout_cnt[" ++ toString i ++ "]",
      [if 0 < (sys.rq i).nr_running then ((current_time % u64size % 1000 : Nat) : Int) else 0])
  else ("pcp_timeout_cnt[" ++ toString i ++ "]", [0])

/-- One `pcp_ldsq_cnt[i]` report line (lines 171-180). -/
def pcpLdsqLine (current_time : Nat) (sys : System) (nr_cpus i : Nat) :
    String × List Int :=
  if i < sys.online.length ∧ i < nr_cpus then
    ("pcp_ldsq_cnt[" ++ toString i ++ "]",
      [((sys.rq i).nr_running : Int), (((current_time % u64size >>> 10) % 100 : Nat) : Int)])
  else ("pcp_ldsq_cnt[" ++ toString i ++ "]", [0, 0])

/-- One `pcp_enql_cnt[i]` report line (lines 183-191). -/
def pcpEnqlLine (sys : System) (nr_cpus i : Nat) : String × List Int :=
  if i < sys.online.length ∧ i < nr_cpus then
    ("pcp_enql_cnt[" ++ toString i ++ "]",
      [((((sys.rq i).nr_switches >>> 8) &&& 255 : Nat) : Int)])
  else ("pcp_enql_cnt[" ++ toString i ++ "]", [0])

/-- One `CPU[c] Load` report line (lines 218-224). -/
def cpuLoadLine (sys : System) (c : Nat) : String × List Int :=
  ("CPU[" ++ toString c ++ "] Load",
    [((sys.rq c).nr_running : Int), (((sys.rq c).nr_switches &&& 16777215 : Nat) : Int)])

/-- The fixed-order header lines of the report (lines 137-145). -/
def headerBlock (current_time : Nat) (sys : System) : List (String × List Int) :=
  [("global stat", [(sumLoadU64 sys : Int), ((current_time % u64size : Nat) : Int)]),
   ("cpu_allow_fail", [(0 : Int), (sys.online.length : Int)]),
   ("rt_cnt", [(sumSwitchU64 sys : Int), (avgLoad sys : Int)]),
   ("key_task_cnt", [0, 0]),
   ("switch_idx", [0, 0]),
   ("timeout_cnt", [0, 0]),
   ("total_dsp_cnt", [0, 0]),
   ("move_rq_cnt", [0, 0]),
   ("select_cpu", [0, 0])]

/-- The scalar status lines of the report (lines 194-215). -/
def scalarBlock (current_time : Nat) (sys : System) (tun : Tunables)
    (scx_exit_type scx_nr_rejected : Int) : List (String × List Int) :=
  [("SCX Enabled", [tun.scx_enable]),
   ("Partial Enable", [tun.part_enable]),
   ("Slim Stats", [tun.slim_stats]),
   ("Heartbeat", [tun.heartbeat]),
   ("Misfit DS", [tun.misfit_ds]),
   ("Highres Tick Ctrl", [tun.highres_tick_ctrl]),
   ("Watchdog Enable", [tun.watchdog_enable]),
   ("SCX Exit Type", [scx_exit_type]),
   ("SCX Rejected Tasks", [scx_nr_rejected]),
   ("Sched Ravg Window Frame Per Sec", [tun.sched_ravg_window_frame_per_sec]),
   ("Total Online CPUs", [(sys.online.length : Int)]),
   ("Total Running Tasks", [(sumLoadU64 sys : Int)]),
   ("Average Load Per CPU", [(avgLoad sys : Int)]),
   ("Total Context Switches", [(sumSwitchU64 sys : Int)]),
   ("System Uptime Ticks", [((current_time % u64size >>> 20 : Nat) : Int)])]

/-- The trailing control-parameter lines of the report (lines 227-230). -/
def tailBlock (tun : Tunables) : List (String × List Int) :=
  [("CPU Control High Ratio", [tun.cpuctrl_high_ratio]),
   ("CPU Control Low Ratio", [tun.cpuctrl_low_ratio]),
   ("Isolation Control", [tun.isolate_ctrl]),
   ("Governor Control", [tun.scx_gov_ctrl])]

/-- The `hmbird_stats_proc_show` (src/hmbird_sched_proc_main.c lines 117-233):
the report as the ordered list of `seq_printf` lines, each a label and its
numeric values. `nr_cpus` is the kernel configuration constant `NR_CPUS`;
`scx_exit_type` / `scx_nr_rejected` are the two atomics read from the
external `ext.c`. The function performs only reads; the `_pol` argument
records that no `src/build_policy.c` global — in particular
`cpu_performance_threshold` — is consulted anywhere in the report. -/
def hmbird_stats_proc_show (current_time : Nat) (sys : System) (tun : Tunables)
    (scx_exit_type scx_nr_rejected : Int) (_pol : PolicyState) (nr_cpus : Nat) :
    List (String × List Int) :=
  headerBlock current_time sys
    ++ (List.range 10).map (gdsqLine sys nr_cpus)
    ++ [("err_idx", [0, 0, 0, 0, 0])]
    ++ (List.range 8).map (pcpTimeoutLine current_time sys nr_cpus)
    ++ (List.range 8).map (pcpLdsqLine current_time sys nr_cpus)
    ++ (List.range 8).map (pcpEnqlLine sys nr_cpus)
    ++ scalarBlock current_time sys tun scx_exit_type scx_nr_rejected
    ++ (sys.online.filter (fun c => decide (c < 8))).map (cpuLoadLine sys)
    ++ tailBlock tun

/-!
Basic lemmas about the optimizer
-/

lemma le_foldl_add (f : Nat → Nat) (l : List Nat) (acc : Nat) :
    acc ≤ l.foldl (fun a c => a + f c) acc := by
  induction l generalizing acc with
  | nil => exact Nat.le_refl acc
  | cons c t ih => exact Nat.le_trans (Nat.le_add_right acc (f c)) (ih (acc + f c))

lemma foldl_mod_eq (f : Nat → Nat) (l : List Nat) (acc : Nat)
    (h : l.foldl (fun a c => a + f c) acc < u64size) :
    l.foldl (fun a c => (a + f c) % u64size) acc = l.foldl (fun a c => a + f c) acc := by
  induction l generalizing acc with
  | nil => rfl
  | cons c t ih =>
    simp only [List.foldl_cons] at h ⊢
    have hstep : acc + f c < u64size := lt_of_le_of_lt (le_foldl_add f t (acc + f c)) h
    rw [Nat.mod_eq_of_lt hstep]
    exact ih (acc + f c) h

/-- When the true total load fits in a u64 the wrapping accumulation of
`optimize_cpu_performance` computes it exactly. -/
lemma sumLoadU64_eq (sys : System) (h : sumLoad sys < u64size) :
    sumLoadU64 sys = sumLoad sys := by
  unfold sumLoadU64
  unfold sumLoad at h ⊢
  exact foldl_mod_eq (fun c => (sys.rq c).nr_running) sys.online 0 h

lemma uSub_zero (t : Nat) : uSub t 0 = t % u64size := by
  show (t % u64size + (u64size - 0 % u64size)) % u64size = t % u64size
  rw [Nat.zero_mod, Nat.sub_zero, Nat.add_mod_right, Nat.mod_mod_of_dvd]
  exact dvd_refl u64size

/-- A gated-out call is a complete no-op. -/
lemma optimize_blocked (sys : System) (t self : Nat) (st : PolicyState)
    (h : uSub t st.last_optimization_time < gateLimit st.load_balance_interval) :
    optimize_cpu_performance sys t self st = ⟨st, [], []⟩ := by
  simp only [optimize_cpu_performance]
  rw [if_pos h]

/-- A call that passes the gate stamps `last_optimization_time`. -/
lemma optimize_last (sys : System) (t self : Nat) (st : PolicyState)
    (h : ¬ uSub t st.last_optimization_time < gateLimit st.load_balance_interval) :
    (optimize_cpu_performance sys t self st).state.last_optimization_time = t % u64size := by
  simp only [optimize_cpu_performance]
  rw [if_neg h]

/-- No call changes `load_balance_interval`. -/
lemma optimize_interval (sys : System) (t self : Nat) (st : PolicyState) :
    (optimize_cpu_performance sys t self st).state.load_balance_interval =
      st.load_balance_interval := by
  simp only [optimize_cpu_performance]
  split <;> rfl

/-- No call changes `policy_optimization_enabled`. -/
lemma optimize_enabled (sys : System) (t self : Nat) (st : PolicyState) :
    (optimize_cpu_performance sys t self st).state.enabled = st.enabled := by
  simp only [optimize_cpu_performance]
  split <;> rfl

/-- The threshold written by a gate-passing call. -/
lemma optimize_thr (sys : System) (t self : Nat) (st : PolicyState)
    (h : ¬ uSub t st.last_optimization_time < gateLimit st.load_balance_interval) :
    (optimize_cpu_performance sys t self st).state.cpu_performance_threshold =
      if sys.online.length * 3 < sumLoadU64 sys then
        min (st.cpu_performance_threshold + 5) 95
      else if sumLoadU64 sys < sys.online.length then
        max (st.cpu_performance_threshold - 5) 50
      else st.cpu_performance_threshold := by
  simp only [optimize_cpu_performance]
  rw [if_neg h]

/-- The overload diagnostics of a gate-passing call. -/
lemma optimize_overloaded (sys : System) (t self : Nat) (st : PolicyState)
    (h : ¬ uSub t st.last_optimization_time < gateLimit st.load_balance_interval) :
    (optimize_cpu_performance sys t self st).overloaded =
      sys.online.filter (fun c => decide (sys.online.length * 2 < (sys.rq c).nr_running)) := by
  simp only [optimize_cpu_performance]
  rw [if_neg h]

/-- The fan-out of a gate-passing call. -/
lemma optimize_kicked (sys : System) (t self : Nat) (st : PolicyState)
    (h : ¬ uSub t st.last_optimization_time < gateLimit st.load_balance_interval) :
    (optimize_cpu_performance sys t self st).kicked =
      if (sys.online.any fun c => decide (sys.online.length * 2 < (sys.rq c).nr_running))
          && st.enabled then
        sys.online.filter (fun c => decide (c ≠ self))
      else [] := by
  simp only [optimize_cpu_performance]
  rw [if_neg h]

/-!
Concrete fixtures used by witnesses and counterexamples
-/

/-- One online cpu with an empty runqueue. -/
def sysIdle : System := ⟨[0], fun _ => ⟨0, 0⟩⟩

/-- One online cpu with 4 runnable tasks. -/
def sysFour : System := ⟨[0], fun _ => ⟨4, 0⟩⟩

/-- One online cpu with 100 runnable tasks. -/
def sysBusy : System := ⟨[0], fun _ => ⟨100, 0⟩⟩

/-- Two online cpus with 5 runnable tasks each. -/
def sysOver : System := ⟨[0, 1], fun _ => ⟨5, 0⟩⟩

/-- Globals as after a small-system init: threshold 70, interval 100 ms. -/
def stFresh : PolicyState := ⟨true, 70, 100, 0⟩

/-!
Claims C1 - C5
-/

/-- C1. In a pass that clears the rate-limit gate, with N online processors
and a total queue length that fits in u64: total > 3N raises the threshold
by 5 clamped at 95, total < N lowers it by 5 clamped at 50, and a total
between N and 3N inclusive leaves it unchanged. -/
theorem c1_threshold_adjustment (sys : System) (t self : Nat) (st : PolicyState)
    (hgate : ¬ uSub t st.last_optimization_time < gateLimit st.load_balance_interval)
    (hsum : sumLoad sys < u64size) :
    (sys.online.length * 3 < sumLoad sys →
      (optimize_cpu_performance sys t self st).state.cpu_performance_threshold =
        min (st.cpu_performance_threshold + 5) 95) ∧
    (sumLoad sys < sys.online.length →
      (optimize_cpu_performance sys t self st).state.cpu_performance_threshold =
        max (st.cpu_performance_threshold - 5) 50) ∧
    (sys.online.length ≤ sumLoad sys → sumLoad sys ≤ sys.online.length * 3 →
      (optimize_cpu_performance sys t self st).state.cpu_performance_threshold =
        st.cpu_performance_threshold) := by
  rw [optimize_thr sys t self st hgate, sumLoadU64_eq sys hsum]
  refine ⟨fun h => ?_, fun h => ?_, fun h1 h2 => ?_⟩
  · rw [if_pos h]
  · rw [if_neg (by omega), if_pos h]
  · rw [if_neg (by omega), if_neg (by omega)]

/-- Witness for C1: one online cpu with queue length 4 (> 3·1) at a clock
reading that clears the gate; the threshold moves 70 → 75 (min (70+5) 95). -/
theorem c1_threshold_adjustment_witness :
    (¬ uSub 1000000000 stFresh.last_optimization_time <
        gateLimit stFresh.load_balance_interval) ∧
    sumLoad sysFour < u64size ∧
    (sysFour.online.length * 3 < sumLoad sysFour →
      (optimize_cpu_performance sysFour 1000000000 0 stFresh).state.cpu_performance_threshold =
        min (stFresh.cpu_performance_threshold + 5) 95) :=
  ⟨by decide, by decide,
    (c1_threshold_adjustment sysFour 1000000000 0 stFresh (by decide) (by decide)).1⟩

/-- C2 (amended). The gate, not invocation spacing, bounds the optimizer:
a call strictly within `load_balance_interval` ms of the last gate-passing
call is a complete no-op (state, fan-out and diagnostics untouched); a
gate-passing call stamps `last_optimization_time` with the current clock;
and after a gate-passing call at time `t`, any call within the interval of
`t` is again a complete no-op. -/
theorem c2_rate_limit_gate (sys : System) (t self : Nat) (st : PolicyState) :
    (uSub t st.last_optimization_time < gateLimit st.load_balance_interval →
      optimize_cpu_performance sys t self st = ⟨st, [], []⟩) ∧
    (¬ uSub t st.last_optimization_time < gateLimit st.load_balance_interval →
      (optimize_cpu_performance sys t self st).state.last_optimization_time = t % u64size) ∧
    (∀ (sys2 : System) (t2 self2 : Nat),
      ¬ uSub t st.last_optimization_time < gateLimit st.load_balance_interval →
      uSub t2 (t % u64size) < gateLimit st.load_balance_interval →
      optimize_cpu_performance sys2 t2 self2 (optimize_cpu_performance sys t self st).state =
        ⟨(optimize_cpu_performance sys t self st).state, [], []⟩) := by
  refine ⟨optimize_blocked sys t self st, optimize_last sys t self st, ?_⟩
  intro sys2 t2 self2 h1 h2
  apply optimize_blocked
  rw [optimize_last sys t self st h1, optimize_interval sys t self st]
  exact h2

/-- Witness for C2: a blocked call (5 ns elapsed, 100 ms interval) is a
complete no-op. -/
theorem c2_rate_limit_gate_witness :
    uSub 5 stFresh.last_optimization_time < gateLimit stFresh.load_balance_interval ∧
    optimize_cpu_performance sysIdle 5 0 stFresh = ⟨stFresh, [], []⟩ :=
  ⟨by decide, (c2_rate_limit_gate sysIdle 5 0 stFresh).1 (by decide)⟩

/-- Counterexample to C2 as stated. Three invocations at 1.00 s, 1.06 s and
1.12 s are each spaced 60 ms < 100 ms (= `load_balance_interval`) apart, so
the claim demands that only the first does any work. The first passes the
gate (adjusting the threshold 70 → 65) and the second is indeed a no-op,
but the third ALSO passes the gate — 120 ms have elapsed since the last
stamped time — performing sampling, adjusting the threshold to 60 and
stamping `last_optimization_time`. -/
theorem c2_rate_limit_counterexample :
    uSub 1060000000 1000000000 < gateLimit 100 ∧
    uSub 1120000000 1060000000 < gateLimit 100 ∧
    (optimize_cpu_performance sysIdle 1000000000 0 stFresh).state.cpu_performance_threshold = 65 ∧
    optimize_cpu_performance sysIdle 1060000000 0
        (optimize_cpu_performance sysIdle 1000000000 0 stFresh).state =
      ⟨(optimize_cpu_performance sysIdle 1000000000 0 stFresh).state, [], []⟩ ∧
    (optimize_cpu_performance sysIdle 1120000000 0
        (optimize_cpu_performance sysIdle 1060000000 0
          (optimize_cpu_performance sysIdle 1000000000 0 stFresh).state).state).state.cpu_performance_threshold
      = 60 ∧
    (optimize_cpu_performance sysIdle 1120000000 0
        (optimize_cpu_performance sysIdle 1060000000 0
          (optimize_cpu_performance sysIdle 1000000000 0 stFresh).state).state).state.last_optimization_time
      = 1120000000 := by
  decide

/-- C3. In a pass that clears the gate: a processor is flagged overloaded
exactly when its queue length exceeds twice the online count; when some
processor is overloaded and optimization is enabled the fan-out kicks every
online processor other than the caller, in iteration order; no overload, or
`enabled = false` (the state after `onStop`), means no fan-out. -/
theorem c3_overload_fanout (sys : System) (t self : Nat) (st : PolicyState)
    (hgate : ¬ uSub t st.last_optimization_time < gateLimit st.load_balance_interval) :
    (∀ c, c ∈ (optimize_cpu_performance sys t self st).overloaded ↔
      c ∈ sys.online ∧ sys.online.length * 2 < (sys.rq c).nr_running) ∧
    ((∃ c ∈ sys.online, sys.online.length * 2 < (sys.rq c).nr_running) →
      st.enabled = true →
      (optimize_cpu_performance sys t self st).kicked =
        sys.online.filter (fun c => decide (c ≠ self))) ∧
    ((¬ ∃ c ∈ sys.online, sys.online.length * 2 < (sys.rq c).nr_running) →
      (optimize_cpu_performance sys t self st).kicked = []) ∧
    (st.enabled = false → (optimize_cpu_performance sys t self st).kicked = []) := by
  rw [optimize_overloaded sys t self st hgate, optimize_kicked sys t self st hgate]
  refine ⟨?_, ?_, ?_, ?_⟩
  · intro c
    simp [List.mem_filter]
  · intro hex hen
    have ha : (sys.online.any fun c =>
        decide (sys.online.length * 2 < (sys.rq c).nr_running)) = true := by
      simp only [List.any_eq_true, decide_eq_true_eq]
      exact hex
    rw [if_pos (by rw [ha, hen]; rfl)]
  · intro hnex
    have ha : (sys.online.any fun c =>
        decide (sys.online.length * 2 < (sys.rq c).nr_running)) = false := by
      rw [Bool.eq_false_iff]
      intro hcontra
      apply hnex
      simpa only [List.any_eq_true, decide_eq_true_eq] using hcontra
    rw [ha]
    simp
  · intro hen
    rw [hen]
    simp

/-- Witness for C3: two online cpus with queue length 5 (> 2·2), caller on
cpu 0, enabled; cpu 1 alone is kicked. -/
theorem c3_overload_fanout_witness :
    (¬ uSub 1000000000 stFresh.last_optimization_time <
        gateLimit stFresh.load_balance_interval) ∧
    (∃ c ∈ sysOver.online, sysOver.online.length * 2 < (sysOver.rq c).nr_running) ∧
    (optimize_cpu_performance sysOver 1000000000 0 stFresh).kicked =
      sysOver.online.filter (fun c => decide (c ≠ 0)) :=
  ⟨by decide, ⟨1, by decide, by decide⟩,
    (c3_overload_fanout sysOver 1000000000 0 stFresh (by decide)).2.1
      ⟨1, by decide, by decide⟩ rfl⟩

/-- Thresholds reachable in one optimizer call: unchanged, clamped up, or
clamped down. -/
lemma optimize_thr_mem (sys : System) (t self : Nat) (st : PolicyState) :
    (optimize_cpu_performance sys t self st).state.cpu_performance_threshold =
        st.cpu_performance_threshold ∨
    (optimize_cpu_performance sys t self st).state.cpu_performance_threshold =
        min (st.cpu_performance_threshold + 5) 95 ∨
    (optimize_cpu_performance sys t self st).state.cpu_performance_threshold =
        max (st.cpu_performance_threshold - 5) 50 := by
  by_cases h : uSub t st.last_optimization_time < gateLimit st.load_balance_interval
  · rw [optimize_blocked sys t self st h]
    exact Or.inl rfl
  · rw [optimize_thr sys t self st h]
    split
    · exact Or.inr (Or.inl rfl)
    · split
      · exact Or.inr (Or.inr rfl)
      · exact Or.inl rfl

/-- Range preservation and bounded step for one optimizer call. -/
lemma optimize_thr_bounds (sys : System) (t self : Nat) (st : PolicyState)
    (h50 : 50 ≤ st.cpu_performance_threshold)
    (h95 : st.cpu_performance_threshold ≤ 95) :
    (50 ≤ (optimize_cpu_performance sys t self st).state.cpu_performance_threshold ∧
      (optimize_cpu_performance sys t self st).state.cpu_performance_threshold ≤ 95) ∧
    ((optimize_cpu_performance sys t self st).state.cpu_performance_threshold ≤
        st.cpu_performance_threshold + 5 ∧
      st.cpu_performance_threshold - 5 ≤
        (optimize_cpu_performance sys t self st).state.cpu_performance_threshold) := by
  rcases optimize_thr_mem sys t self st with h | h | h <;> rw [h]
  · omega
  · rw [min_def]
    split <;> omega
  · rw [max_def]
    split <;> omega

/-- C4. The threshold invariant: `cpu_performance_threshold` starts in
[50, 95], stays in [50, 95] across every optimizer pass, hotplug callback,
module init and module exit, and a single optimizer pass moves it by at
most 5. -/
theorem c4_threshold_invariant (sys : System) (t self action : Nat) (st : PolicyState)
    (h50 : 50 ≤ st.cpu_performance_threshold)
    (h95 : st.cpu_performance_threshold ≤ 95) :
    (50 ≤ initialPolicyState.cpu_performance_threshold ∧
      initialPolicyState.cpu_performance_threshold ≤ 95) ∧
    (50 ≤ (optimize_cpu_performance sys t self st).state.cpu_performance_threshold ∧
      (optimize_cpu_performance sys t self st).state.cpu_performance_threshold ≤ 95) ∧
    ((optimize_cpu_performance sys t self st).state.cpu_performance_threshold ≤
        st.cpu_performance_threshold + 5 ∧
      st.cpu_performance_threshold - 5 ≤
        (optimize_cpu_performance sys t self st).state.cpu_performance_threshold) ∧
    (50 ≤ (policy_cpu_callback sys t self action st).state.cpu_performance_threshold ∧
      (policy_cpu_callback sys t self action st).state.cpu_performance_threshold ≤ 95) ∧
    (50 ≤ (build_policy_init sys t self st).state.cpu_performance_threshold ∧
      (build_policy_init sys t self st).state.cpu_performance_threshold ≤ 95) ∧
    (50 ≤ (build_policy_exit sys t self st).state.cpu_performance_threshold ∧
      (build_policy_exit sys t self st).state.cpu_performance_threshold ≤ 95) := by
  refine ⟨by decide, (optimize_thr_bounds sys t self st h50 h95).1,
    (optimize_thr_bounds sys t self st h50 h95).2, ?_, ?_, ?_⟩
  · simp only [policy_cpu_callback]
    split
    · exact (optimize_thr_bounds sys t self st h50 h95).1
    · split
      · exact (optimize_thr_bounds sys t self st h50 h95).1
      · exact ⟨h50, h95⟩
  · simp only [build_policy_init]
    split
    · exact (optimize_thr_bounds sys t self
        { st with cpu_performance_threshold := 85, load_balance_interval := 50 }
        (show (50 : Int) ≤ 85 by norm_num) (show (85 : Int) ≤ 95 by norm_num)).1
    · split
      · exact (optimize_thr_bounds sys t self
          { st with cpu_performance_threshold := 75, load_balance_interval := 75 }
          (show (50 : Int) ≤ 75 by norm_num) (show (75 : Int) ≤ 95 by norm_num)).1
      · exact (optimize_thr_bounds sys t self
          { st with cpu_performance_threshold := 70, load_balance_interval := 100 }
          (show (50 : Int) ≤ 70 by norm_num) (show (70 : Int) ≤ 95 by norm_num)).1
  · simp only [build_policy_exit]
    exact (optimize_thr_bounds sys t self { st with enabled := false } h50 h95).1

/-- Witness for C4: from threshold 70 ∈ [50, 95], an optimizer pass on an
idle system stays in range. -/
theorem c4_threshold_invariant_witness :
    (50 ≤ stFresh.cpu_performance_threshold ∧ stFresh.cpu_performance_threshold ≤ 95) ∧
    (50 ≤ (optimize_cpu_performance sysIdle 1000000000 0 stFresh).state.cpu_performance_threshold ∧
      (optimize_cpu_performance sysIdle 1000000000 0 stFresh).state.cpu_performance_threshold ≤ 95) :=
  ⟨⟨by decide, by decide⟩,
    (c4_threshold_invariant sysIdle 1000000000 0 0 stFresh (by decide) (by decide)).2.1⟩

/-- The `build_policy_init` is the initial optimizer call on the table-initialized
globals. -/
lemma build_policy_init_eq (sys : System) (t self : Nat) (st : PolicyState) :
    build_policy_init sys t self st =
      optimize_cpu_performance sys t self
        { st with
            cpu_performance_threshold :=
              if 8 ≤ sys.online.length then 85
              else if 4 ≤ sys.online.length then 75 else 70
            load_balance_interval :=
              if 8 ≤ sys.online.length then 50
              else if 4 ≤ sys.online.length then 75 else 100 } := by
  simp only [build_policy_init]
  by_cases h8 : 8 ≤ sys.online.length
  · simp [h8]
  · by_cases h4 : 4 ≤ sys.online.length <;> simp [h8, h4]

/-- C5 (amended). At process start (`last_optimization_time = 0`), init sets
the threshold/interval exactly per the three-tier table and then invokes one
optimizer pass — but that pass does NOT bypass the rate-limit gate: it does
its work exactly when the clock reading at init is at least
`balance_interval` ms (always true when the module loads that long after
boot, since `sched_clock` counts nanoseconds from boot), and then it stamps
`last_optimization_time`; at an earlier clock reading the pass returns
immediately, leaving the table threshold and the zero timestamp in place. -/
theorem c5_init_table (sys : System) (t self : Nat) :
    (build_policy_init sys t self initialPolicyState).state.load_balance_interval =
      (if 8 ≤ sys.online.length then 50
        else if 4 ≤ sys.online.length then 75 else 100) ∧
    build_policy_init sys t self initialPolicyState =
      optimize_cpu_performance sys t self
        { initialPolicyState with
            cpu_performance_threshold :=
              if 8 ≤ sys.online.length then 85
              else if 4 ≤ sys.online.length then 75 else 70
            load_balance_interval :=
              if 8 ≤ sys.online.length then 50
              else if 4 ≤ sys.online.length then 75 else 100 } ∧
    (¬ t % u64size < gateLimit (if 8 ≤ sys.online.length then 50
        else if 4 ≤ sys.online.length then 75 else 100) →
      (build_policy_init sys t self initialPolicyState).state.last_optimization_time =
        t % u64size) ∧
    (t % u64size < gateLimit (if 8 ≤ sys.online.length then 50
        else if 4 ≤ sys.online.length then 75 else 100) →
      (build_policy_init sys t self initialPolicyState).state.cpu_performance_threshold =
        (if 8 ≤ sys.online.length then 85
          else if 4 ≤ sys.online.length then 75 else 70) ∧
      (build_policy_init sys t self initialPolicyState).state.last_optimization_time = 0) := by
  rw [build_policy_init_eq sys t self initialPolicyState]
  refine ⟨?_, rfl, ?_, ?_⟩
  · rw [optimize_interval]
  · intro h
    rw [optimize_last]
    rw [show ({ initialPolicyState with
        cpu_performance_threshold :=
          if 8 ≤ sys.online.length then 85
          else if 4 ≤ sys.online.length then 75 else 70
        load_balance_interval :=
          if 8 ≤ sys.online.length then 50
          else if 4 ≤ sys.online.length then 75 else 100 } :
        PolicyState).last_optimization_time = 0 from rfl, uSub_zero]
    exact h
  · intro h
    rw [optimize_blocked]
    · exact ⟨rfl, rfl⟩
    · rw [show ({ initialPolicyState with
          cpu_performance_threshold :=
            if 8 ≤ sys.online.length then 85
            else if 4 ≤ sys.online.length then 75 else 70
          load_balance_interval :=
            if 8 ≤ sys.online.length then 50
            else if 4 ≤ sys.online.length then 75 else 100 } :
          PolicyState).last_optimization_time = 0 from rfl, uSub_zero]
      exact h

/-- Witness for C5: one online cpu, init at clock reading 1 s ≥ 100 ms: the
initial pass clears the gate and stamps the timestamp. -/
theorem c5_init_table_witness :
    (¬ 1000000000 % u64size < gateLimit (if 8 ≤ sysIdle.online.length then 50
        else if 4 ≤ sysIdle.online.length then 75 else 100)) ∧
    (build_policy_init sysIdle 1000000000 0 initialPolicyState).state.last_optimization_time =
      1000000000 % u64size :=
  ⟨by decide, (c5_init_table sysIdle 1000000000 0).2.2.1 (by decide)⟩

/-- Counterexample to C5 as stated. One online cpu with 100 runnable tasks
and init at clock reading 1 ms (module loaded early in boot). The claim says
the initial pass runs unconditionally, bypassing the gate; if it had, the
threshold adjustment of a 100-task total (> 3·1) would have moved the table
value 70 to min (70+5) 95 = 75 and stamped `last_optimization_time`.
Instead the gate blocks the pass (1 ms < the 100 ms interval): the threshold
stays at the table value 70 and the timestamp stays 0. -/
theorem c5_init_counterexample :
    sysBusy.online.length * 3 < sumLoad sysBusy ∧
    (build_policy_init sysBusy 1000000 0 initialPolicyState).state.cpu_performance_threshold = 70 ∧
    (build_policy_init sysBusy 1000000 0 initialPolicyState).state.cpu_performance_threshold ≠
      min (70 + 5) 95 ∧
    (build_policy_init sysBusy 1000000 0 initialPolicyState).state.last_optimization_time = 0 := by
  decide

/-!
Claims C6, C7, C9 — the stats report and the registry
-/

lemma mem_show_of_scalar {x : String × List Int} (current_time : Nat) (sys : System)
    (tun : Tunables) (e r : Int) (pol : PolicyState) (nr : Nat)
    (hx : x ∈ scalarBlock current_time sys tun e r) :
    x ∈ hmbird_stats_proc_show current_time sys tun e r pol nr := by
  simp only [hmbird_stats_proc_show, List.mem_append]
  tauto

lemma mem_show_of_gdsq {x : String × List Int} (current_time : Nat) (sys : System)
    (tun : Tunables) (e r : Int) (pol : PolicyState) (nr : Nat)
    (hx : x ∈ (List.range 10).map (gdsqLine sys nr)) :
    x ∈ hmbird_stats_proc_show current_time sys tun e r pol nr := by
  simp only [hmbird_stats_proc_show, List.mem_append]
  tauto

lemma mem_show_of_cpuLoad {x : String × List Int} (current_time : Nat) (sys : System)
    (tun : Tunables) (e r : Int) (pol : PolicyState) (nr : Nat)
    (hx : x ∈ (sys.online.filter (fun c => decide (c < 8))).map (cpuLoadLine sys)) :
    x ∈ hmbird_stats_proc_show current_time sys tun e r pol nr := by
  simp only [hmbird_stats_proc_show, List.mem_append]
  tauto

lemma mem_show_of_tail {x : String × List Int} (current_time : Nat) (sys : System)
    (tun : Tunables) (e r : Int) (pol : PolicyState) (nr : Nat)
    (hx : x ∈ tailBlock tun) :
    x ∈ hmbird_stats_proc_show current_time sys tun e r pol nr := by
  simp only [hmbird_stats_proc_show, List.mem_append]
  tauto

/-- Globals differing from `initialPolicyState` only in the threshold. -/
def polHigh : PolicyState := ⟨true, 95, 100, 0⟩

/-- Tunables differing from the defaults only in three registry-settable
cells that the stats report never prints. -/
def tunAlt : Tunables :=
  { initialTunables with cpu7_tl := 99, hmbirdcore_debug := 1, parctrl_high_ratio := 80 }

/-- C6 (amended). `cpu_performance_threshold` is not wired to any entry of
the proc registry (so it cannot be written through it) — but it IS an
externally writable module parameter (mode 0644), and the stats report does
not expose it at all: the report is the same function for every
`PolicyState`. -/
theorem c6_threshold_exposure (current_time : Nat) (sys : System) (tun : Tunables)
    (e r : Int) (nr : Nat) (pol pol' : PolicyState) :
    (∀ p ∈ hmbird_registry, p.2 ≠ Cell.cpu_performance_threshold) ∧
    ("cpu_performance_threshold", Cell.cpu_performance_threshold, 0o644) ∈
      build_policy_module_params ∧
    hmbird_stats_proc_show current_time sys tun e r pol nr =
      hmbird_stats_proc_show current_time sys tun e r pol' nr :=
  ⟨by decide, by decide, rfl⟩

/-- Witness for C6 at a concrete registry entry. -/
theorem c6_threshold_exposure_witness :
    ("scx_enable", Cell.scx_enable) ∈ hmbird_registry ∧
    Cell.scx_enable ≠ Cell.cpu_performance_threshold :=
  ⟨by decide,
    (c6_threshold_exposure 5000 sysOver initialTunables 0 0 64
        initialPolicyState initialPolicyState).1
      ("scx_enable", Cell.scx_enable) (by decide)⟩

/-- Counterexample to C6 as stated: the claim says the threshold is exposed
read-only via the stats report; in fact the report does not depend on it.
Two global states that differ exactly in `cpu_performance_threshold`
(80 vs 95) produce byte-identical reports. -/
theorem c6_threshold_counterexample :
    initialPolicyState.cpu_performance_threshold ≠ polHigh.cpu_performance_threshold ∧
    hmbird_stats_proc_show 5000 sysOver initialTunables 0 0 initialPolicyState 64 =
      hmbird_stats_proc_show 5000 sysOver initialTunables 0 0 polHigh 64 :=
  ⟨by decide, rfl⟩

/-- C7 (amended). Every stats-report read includes the per-processor table
lines bounded to the first 8-10 slots, the detailed per-cpu load/switch
lines for online cpus with id < 8, the aggregate totals, and the current
values of exactly the twelve tunables the report prints (`scx_enable`,
`partial_ctrl`→Partial Enable, `slim_stats`, `heartbeat`, `misfit_ds`,
`scx_shadow_tick_enable`→Highres Tick Ctrl, `watchdog_enable`,
`frame_per_sec`, `cpuctrl_high`, `cpuctrl_low`, `isolate_ctrl`,
`scx_gov_ctrl`) — not of every registered tunable. The show path is a pure
read: it is modelled as a function of the state with no state output. -/
theorem c7_report_contents (current_time : Nat) (sys : System) (tun : Tunables)
    (e r : Int) (pol : PolicyState) (nr : Nat) :
    (∀ i ∈ List.range 10,
      gdsqLine sys nr i ∈ hmbird_stats_proc_show current_time sys tun e r pol nr) ∧
    (∀ c ∈ sys.online, c < 8 →
      cpuLoadLine sys c ∈ hmbird_stats_proc_show current_time sys tun e r pol nr) ∧
    ("Total Online CPUs", [(sys.online.length : Int)]) ∈
      hmbird_stats_proc_show current_time sys tun e r pol nr ∧
    ("Total Running Tasks", [(sumLoadU64 sys : Int)]) ∈
      hmbird_stats_proc_show current_time sys tun e r pol nr ∧
    ("Total Context Switches", [(sumSwitchU64 sys : Int)]) ∈
      hmbird_stats_proc_show current_time sys tun e r pol nr ∧
    ("SCX Enabled", [tun.scx_enable]) ∈
      hmbird_stats_proc_show current_time sys tun e r pol nr ∧
    ("Partial Enable", [tun.part_enable]) ∈
      hmbird_stats_proc_show current_time sys tun e r pol nr ∧
    ("Slim Stats", [tun.slim_stats]) ∈
      hmbird_stats_proc_show current_time sys tun e r pol nr ∧
    ("Heartbeat", [tun.heartbeat]) ∈
      hmbird_stats_proc_show current_time sys tun e r pol nr ∧
    ("Misfit DS", [tun.misfit_ds]) ∈
      hmbird_stats_proc_show current_time sys tun e r pol nr ∧
    ("Highres Tick Ctrl", [tun.highres_tick_ctrl]) ∈
      hmbird_stats_proc_show current_time sys tun e r pol nr ∧
    ("Watchdog Enable", [tun.watchdog_enable]) ∈
      hmbird_stats_proc_show current_time sys tun e r pol nr ∧
    ("Sched Ravg Window Frame Per Sec", [tun.sched_ravg_window_frame_per_sec]) ∈
      hmbird_stats_proc_show current_time sys tun e r pol nr ∧
    ("CPU Control High Ratio", [tun.cpuctrl_high_ratio]) ∈
      hmbird_stats_proc_show current_time sys tun e r pol nr ∧
    ("CPU Control Low Ratio", [tun.cpuctrl_low_ratio]) ∈
      hmbird_stats_proc_show current_time sys tun e r pol nr ∧
    ("Isolation Control", [tun.isolate_ctrl]) ∈
      hmbird_stats_proc_show current_time sys tun e r pol nr ∧
    ("Governor Control", [tun.scx_gov_ctrl]) ∈
      hmbird_stats_proc_show current_time sys tun e r pol nr := by
  refine ⟨?_, ?_, ?_, ?_, ?_, ?_, ?_, ?_, ?_, ?_, ?_, ?_, ?_, ?_, ?_, ?_, ?_⟩
  · intro i hi
    exact mem_show_of_gdsq current_time sys tun e r pol nr (List.mem_map_of_mem _ hi)
  · intro c hc hc8
    refine mem_show_of_cpuLoad current_time sys tun e r pol nr (List.mem_map_of_mem _ ?_)
    exact List.mem_filter.mpr ⟨hc, by simpa using hc8⟩
  · exact mem_show_of_scalar current_time sys tun e r pol nr (by simp [scalarBlock])
  · exact mem_show_of_scalar current_time sys tun e r pol nr (by simp [scalarBlock])
  · exact mem_show_of_scalar current_time sys tun e r pol nr (by simp [scalarBlock])
  · exact mem_show_of_scalar current_time sys tun e r pol nr (by simp [scalarBlock])
  · exact mem_show_of_scalar current_time sys tun e r pol nr (by simp [scalarBlock])
  · exact mem_show_of_scalar current_time sys tun e r pol nr (by simp [scalarBlock])
  · exact mem_show_of_scalar current_time sys tun e r pol nr (by simp [scalarBlock])
  · exact mem_show_of_scalar current_time sys tun e r pol nr (by simp [scalarBlock])
  · exact mem_show_of_scalar current_time sys tun e r pol nr (by simp [scalarBlock])
  · exact mem_show_of_scalar current_time sys tun e r pol nr (by simp [scalarBlock])
  · exact mem_show_of_scalar current_time sys tun e r pol nr (by simp [scalarBlock])
  · exact mem_show_of_tail current_time sys tun e r pol nr (by simp [tailBlock])
  · exact mem_show_of_tail current_time sys tun e r pol nr (by simp [tailBlock])
  · exact mem_show_of_tail current_time sys tun e r pol nr (by simp [tailBlock])
  · exact mem_show_of_tail current_time sys tun e r pol nr (by simp [tailBlock])

/-- Witness for C7 at a concrete cpu: cpu 1 of a two-cpu system appears as
a detailed load line. -/
theorem c7_report_contents_witness :
    (1 : Nat) ∈ sysOver.online ∧
    cpuLoadLine sysOver 1 ∈
      hmbird_stats_proc_show 5000 sysOver initialTunables 0 0 initialPolicyState 64 :=
  ⟨by decide,
    (c7_report_contents 5000 sysOver initialTunables 0 0 initialPolicyState 64).2.1
      1 (by decide) (by decide)⟩

/-- Counterexample to C7 as stated: the report does not include the value of
every registered tunable. `cpu7_tl`, `hmbirdcore_debug` and
`parctrl_high_ratio` are all registered, yet states differing exactly in
those three cells produce byte-identical reports. -/
theorem c7_report_counterexample :
    ("cpu7_tl", Cell.cpu7_tl) ∈ hmbird_registry ∧
    ("hmbirdcore_debug", Cell.hmbirdcore_debug) ∈ hmbird_registry ∧
    ("parctrl_high_ratio", Cell.parctrl_high_ratio) ∈ hmbird_registry ∧
    initialTunables.cpu7_tl ≠ tunAlt.cpu7_tl ∧
    initialTunables.hmbirdcore_debug ≠ tunAlt.hmbirdcore_debug ∧
    initialTunables.parctrl_high_ratio ≠ tunAlt.parctrl_high_ratio ∧
    hmbird_stats_proc_show 5000 sysOver initialTunables 0 0 initialPolicyState 64 =
      hmbird_stats_proc_show 5000 sysOver tunAlt 0 0 initialPolicyState 64 := by
  refine ⟨by decide, by decide, by decide, by decide, by decide, by decide, rfl⟩

/-- C9. The reported average queue length is the guarded quotient: total
running tasks divided by the online count when that count is positive, and
0 when no cpu is online (the division is never taken with divisor 0), and
the "Average Load Per CPU" line of the report carries exactly this value. -/
theorem c9_average (current_time : Nat) (sys : System) (tun : Tunables)
    (e r : Int) (pol : PolicyState) (nr : Nat)
    (hsum : sumLoad sys < u64size) :
    (0 < sys.online.length → avgLoad sys = sumLoad sys / sys.online.length) ∧
    (sys.online.length = 0 → avgLoad sys = 0) ∧
    ("Average Load Per CPU", [(avgLoad sys : Int)]) ∈
      hmbird_stats_proc_show current_time sys tun e r pol nr := by
  refine ⟨?_, ?_, ?_⟩
  · intro h
    unfold avgLoad
    rw [if_pos h, sumLoadU64_eq sys hsum]
  · intro h
    unfold avgLoad
    rw [if_neg (by omega)]
  · exact mem_show_of_scalar current_time sys tun e r pol nr (by simp [scalarBlock])

/-- Witness for C9: two online cpus with 5 tasks each report average 5. -/
theorem c9_average_witness :
    sumLoad sysOver < u64size ∧
    (0 < sysOver.online.length → avgLoad sysOver = sumLoad sysOver / sysOver.online.length) :=
  ⟨by decide,
    (c9_average 5000 sysOver initialTunables 0 0 initialPolicyState 64 (by decide)).1⟩

/-!
Claims C8, C10 — the tunable write path
-/

lemma isDigitC_bounds {c : Char} (h : isDigitC c = true) :
    48 ≤ c.toNat ∧ c.toNat ≤ 57 := by
  simpa [isDigitC, Bool.and_eq_true, decide_eq_true_eq] using h

lemma digit_char_ne {c : Char} (h : isDigitC c = true) (d : Char)
    (hd : d.toNat < 48) : (c == d) = false := by
  rw [beq_eq_false_iff_ne]
  intro heq
  obtain ⟨h1, h2⟩ := isDigitC_bounds h
  subst heq
  omega

lemma digit_not_space {c : Char} (h : isDigitC c = true) : isSpaceC c = false := by
  simp only [isSpaceC,
    digit_char_ne h ' ' (by decide), digit_char_ne h '\t' (by decide),
    digit_char_ne h '\n' (by decide), digit_char_ne h '\x0b' (by decide),
    digit_char_ne h '\x0c' (by decide), digit_char_ne h '\x0d' (by decide),
    Bool.or_self, Bool.or_false]

lemma dropWhile_all_false {α : Type} {p : α → Bool} {l : List α}
    (h : ∀ a ∈ l, p a = false) : l.dropWhile p = l := by
  cases l with
  | nil => rfl
  | cons a t =>
    rw [List.dropWhile_cons, h a (List.mem_cons_self a t)]
    simp

lemma takeWhile_all_true {α : Type} {p : α → Bool} {l : List α}
    (h : ∀ a ∈ l, p a = true) : l.takeWhile p = l := by
  induction l with
  | nil => rfl
  | cons a t ih =>
    rw [List.takeWhile_cons, h a (List.mem_cons_self a t)]
    simp only [if_true]
    rw [ih fun x hx => h x (List.mem_cons_of_mem a hx)]

lemma cString_digits {ds : List Char} (h : ∀ c ∈ ds, isDigitC c = true) :
    cString ds = ds := by
  unfold cString
  refine takeWhile_all_true fun c hc => ?_
  rw [decide_eq_true_eq]
  intro heq
  obtain ⟨h1, _⟩ := isDigitC_bounds (h c hc)
  rw [heq] at h1
  exact absurd h1 (by decide)

lemma strstrip_digits {ds : List Char} (h : ∀ c ∈ ds, isDigitC c = true) :
    strstrip ds = ds := by
  unfold strstrip
  rw [dropWhile_all_false fun c hc => digit_not_space (h c hc)]
  rw [dropWhile_all_false fun c hc => digit_not_space (h c (List.mem_reverse.mp hc))]
  exact List.reverse_reverse ds

lemma fixupRadix_decimal {c : Char} {t : List Char} (h : ¬ c = '0') :
    fixupRadix (c :: t) = (10, c :: t) := by
  simp only [fixupRadix, if_neg h]

lemma le_foldl_decimal (t : List Char) (a : Nat) :
    a ≤ t.foldl (fun a c => a * 10 + (c.toNat - 48)) a := by
  induction t generalizing a with
  | nil => exact Nat.le_refl a
  | cons c t ih =>
    simp only [List.foldl_cons]
    exact Nat.le_trans (by omega) (ih (a * 10 + (c.toNat - 48)))

lemma foldl_decimal_lt (ds : List Char) (a : Nat)
    (hd : ∀ c ∈ ds, isDigitC c = true) :
    ds.foldl (fun a c => a * 10 + (c.toNat - 48)) a < (a + 1) * 10 ^ ds.length := by
  induction ds generalizing a with
  | nil =>
    simp only [List.foldl_nil, List.length_nil, pow_zero, mul_one]
    exact Nat.lt_succ_self a
  | cons c t ih =>
    simp only [List.foldl_cons, List.length_cons]
    have hc := isDigitC_bounds (hd c (List.mem_cons_self c t))
    have h1 := ih (a * 10 + (c.toNat - 48)) fun x hx => hd x (List.mem_cons_of_mem c hx)
    have h2 : (a * 10 + (c.toNat - 48) + 1) * 10 ^ t.length ≤ (a + 1) * 10 ^ (t.length + 1) := by
      rw [pow_succ]
      calc (a * 10 + (c.toNat - 48) + 1) * 10 ^ t.length
          ≤ ((a + 1) * 10) * 10 ^ t.length :=
            Nat.mul_le_mul_right (10 ^ t.length) (by omega)
        _ = (a + 1) * (10 ^ t.length * 10) := by ring
    exact lt_of_lt_of_le h1 h2

lemma parse_integer_digits (ds : List Char) (cnt val : Nat)
    (hd : ∀ c ∈ ds, isDigitC c = true)
    (hb : ds.foldl (fun a c => a * 10 + (c.toNat - 48)) val < u64size) :
    parse_integer 10 ds cnt val false =
      ⟨cnt + ds.length, ds.foldl (fun a c => a * 10 + (c.toNat - 48)) val, false, []⟩ := by
  induction ds generalizing cnt val with
  | nil => simp [parse_integer]
  | cons c t ih =>
    have hc := hd c (List.mem_cons_self c t)
    have hcb := isDigitC_bounds hc
    have hxd : isXDigitC c = true := by simp [isXDigitC, hc]
    have hdv : digitVal c = c.toNat - 48 := by simp [digitVal, hc]
    simp only [List.foldl_cons] at hb ⊢
    have hstep : val * 10 + (c.toNat - 48) < u64size :=
      lt_of_le_of_lt (le_foldl_decimal t (val * 10 + (c.toNat - 48))) hb
    rw [parse_integer]
    rw [if_pos (by rw [hxd, hdv]; simp only [Bool.true_and, decide_eq_true_eq]; omega :
      (isXDigitC c && decide (digitVal c < 10)) = true)]
    rw [hdv, Nat.mod_eq_of_lt hstep]
    rw [show (false || decide (u64size ≤ val * 10 + (c.toNat - 48))) = false by
      simp [decide_eq_false (Nat.not_le.mpr hstep)]]
    rw [ih (cnt + 1) (val * 10 + (c.toNat - 48))
      (fun x hx => hd x (List.mem_cons_of_mem c hx)) hb]
    simp only [List.length_cons]
    congr 1
    omega

lemma kstrtoullCore_digits {ds : List Char} (hne : ds ≠ [])
    (hd : ∀ c ∈ ds, isDigitC c = true) (hhead : ds.head? ≠ some '0')
    (hb : decimalValue ds < u64size) :
    kstrtoullCore ds = Except.ok (decimalValue ds) := by
  obtain ⟨c, t, rfl⟩ := List.exists_cons_of_ne_nil hne
  have hc0 : ¬ c = '0' := fun h => hhead (by rw [h]; rfl)
  unfold decimalValue at hb ⊢
  simp only [kstrtoullCore, fixupRadix_decimal hc0]
  rw [parse_integer_digits (c :: t) 0 0 hd hb]
  simp

lemma kstrtoint_digits {ds : List Char} (hne : ds ≠ []) (hlen : ds.length ≤ 4)
    (hd : ∀ c ∈ ds, isDigitC c = true) (hhead : ds.head? ≠ some '0') :
    kstrtoint ds = Except.ok ((decimalValue ds : Nat) : Int) := by
  have hlt : decimalValue ds < 10 ^ ds.length := by
    have := foldl_decimal_lt ds 0 hd
    simpa [decimalValue] using this
  have hb4 : decimalValue ds < 10000 := by
    have hp : (10 : Nat) ^ ds.length ≤ 10 ^ 4 := Nat.pow_le_pow_right (by omega) hlen
    omega
  obtain ⟨c, t, rfl⟩ := List.exists_cons_of_ne_nil hne
  have hc := hd c (List.mem_cons_self c t)
  have hcb := isDigitC_bounds hc
  have hminus : ¬ c = '-' := by
    intro h
    rw [h] at hcb
    exact absurd hcb.1 (by decide)
  have hplus : ¬ c = '+' := by
    intro h
    rw [h] at hcb
    exact absurd hcb.1 (by decide)
  have hcore : kstrtoullCore (c :: t) = Except.ok (decimalValue (c :: t)) :=
    kstrtoullCore_digits hne hd hhead (by unfold u64size; omega)
  simp only [kstrtoint, kstrtoll, kstrtoull, if_neg hminus, if_neg hplus, hcore]
  rw [if_neg (by omega)]
  have hrange : ¬ (((decimalValue (c :: t) : Nat) : Int) < -2 ^ 31 ∨
      (2 : Int) ^ 31 - 1 < ((decimalValue (c :: t) : Nat) : Int)) := by omega
  simp [hrange]
  omega

lemma set_proc_buf_val_long (count : Nat) (input : List Char) (copyFails : Bool)
    (val : Int) (h : 5 ≤ count) :
    set_proc_buf_val count input copyFails val = (-EFAULT, val) := by
  simp only [set_proc_buf_val, if_pos h]

lemma set_proc_buf_val_copyfail (count : Nat) (input : List Char) (val : Int)
    (h : ¬ 5 ≤ count) :
    set_proc_buf_val count input true val = (-EFAULT, val) := by
  simp only [set_proc_buf_val, if_neg h, if_true]

lemma set_proc_buf_val_parse_ok (count : Nat) (input : List Char) (val v : Int)
    (h : ¬ 5 ≤ count)
    (hp : kstrtoint (strstrip (cString (input.take count))) = Except.ok v) :
    set_proc_buf_val count input false val = (0, v) := by
  simp only [set_proc_buf_val, if_neg h, Bool.false_eq_true, if_false, hp]

lemma set_proc_buf_val_parse_err (count : Nat) (input : List Char) (val e : Int)
    (h : ¬ 5 ≤ count)
    (hp : kstrtoint (strstrip (cString (input.take count))) = Except.error e) :
    set_proc_buf_val count input false val = (-EFAULT, val) := by
  simp only [set_proc_buf_val, if_neg h, Bool.false_eq_true, if_false, hp]

/-- C8 (amended). A write to a tunable backed by `set_proc_buf_val` parses
its input with the kernel auto-radix integer parser (leading `0x` means
hexadecimal, any other leading `0` means octal, otherwise base 10) rather
than as plain base-10 text: input of 4 bytes or fewer that parses is stored
as the parsed value — in particular plain decimal text with no leading zero
is stored as its base-10 value — input of 5 bytes or more is rejected with
an error before any copy or write occurs, and malformed text fails with a
parse error and no partial write (the stored value is unchanged on every
failure). (`save_gov` is the one registered entry with a different handler:
`save_gov_str` ignores its input entirely and reports success.) -/
theorem c8_write_parse (count : Nat) (input : List Char) (val : Int) :
    (5 ≤ count → ∀ copyFails,
      set_proc_buf_val count input copyFails val = (-EFAULT, val)) ∧
    (count < 5 →
      ∀ v, kstrtoint (strstrip (cString (input.take count))) = Except.ok v →
        set_proc_buf_val count input false val = (0, v)) ∧
    (count < 5 →
      ∀ e, kstrtoint (strstrip (cString (input.take count))) = Except.error e →
        set_proc_buf_val count input false val = (-EFAULT, val)) ∧
    (∀ ds : List Char, ds ≠ [] → ds.length ≤ 4 →
      (∀ c ∈ ds, isDigitC c = true) → ds.head? ≠ some '0' →
      kstrtoint (strstrip (cString ds)) = Except.ok ((decimalValue ds : Nat) : Int)) := by
  refine ⟨?_, ?_, ?_, ?_⟩
  · intro h copyFails
    exact set_proc_buf_val_long count input copyFails val h
  · intro h v hp
    exact set_proc_buf_val_parse_ok count input val v (by omega) hp
  · intro h e hp
    exact set_proc_buf_val_parse_err count input val e (by omega) hp
  · intro ds hne hlen hd hhead
    rw [cString_digits hd, strstrip_digits hd]
    exact kstrtoint_digits hne hlen hd hhead

/-- Witness for C8: the two-byte decimal input "42" is stored as 42. -/
theorem c8_write_parse_witness :
    (2 : Nat) < 5 ∧
    kstrtoint (strstrip (cString ((['4', '2'] : List Char).take 2))) = Except.ok 42 ∧
    set_proc_buf_val 2 ['4', '2'] false 7 = (0, 42) :=
  ⟨by decide, rfl,
    (c8_write_parse 2 ['4', '2'] 7).2.1 (by decide) 42 rfl⟩

/-- Counterexample to C8 as stated. The 3-byte input "010" is well-formed
decimal text whose base-10 value is 10, yet the write stores 8: `kstrtoint`
is called with base 0, so the leading zero selects octal. -/
theorem c8_parse_counterexample :
    set_proc_buf_val 3 ['0', '1', '0'] false 0 = (0, 8) ∧
    decimalValue ['0', '1', '0'] = 10 ∧
    (set_proc_buf_val 3 ['0', '1', '0'] false 0).2 ≠
      ((decimalValue ['0', '1', '0'] : Nat) : Int) := by
  refine ⟨by decide, by decide, by decide⟩

/-- C10. Every failing write through `hmbird_common_write` — an over-long
input, a failed user copy, or unparsable text — returns the single error
value `-EFAULT` with the stored value unchanged, so callers cannot tell the
causes apart; every successful write returns the byte count it was given. -/
theorem c10_error_codes (count : Nat) (input : List Char) (val : Int) :
    (5 ≤ count → ∀ copyFails,
      hmbird_common_write count input copyFails val = (-EFAULT, val)) ∧
    (count < 5 →
      hmbird_common_write count input true val = (-EFAULT, val)) ∧
    (count < 5 →
      ∀ e, kstrtoint (strstrip (cString (input.take count))) = Except.error e →
        hmbird_common_write count input false val = (-EFAULT, val)) ∧
    (count < 5 →
      ∀ v, kstrtoint (strstrip (cString (input.take count))) = Except.ok v →
        hmbird_common_write count input false val = ((count : Int), v)) := by
  refine ⟨?_, ?_, ?_, ?_⟩
  · intro h copyFails
    simp [hmbird_common_write, set_proc_buf_val_long count input copyFails val h, EFAULT]
  · intro h
    simp [hmbird_common_write, set_proc_buf_val_copyfail count input val (by omega), EFAULT]
  · intro h e hp
    simp [hmbird_common_write, set_proc_buf_val_parse_err count input val e (by omega) hp, EFAULT]
  · intro h v hp
    simp [hmbird_common_write, set_proc_buf_val_parse_ok count input val v (by omega) hp]

/-- Witness for C10: an unparsable 3-byte input and a parsable one through
the full write path. -/
theorem c10_error_codes_witness :
    (3 : Nat) < 5 ∧
    kstrtoint (strstrip (cString ((['a', 'b', 'c'] : List Char).take 3))) =
      Except.error (-EINVAL) ∧
    hmbird_common_write 3 ['a', 'b', 'c'] false 7 = (-EFAULT, 7) :=
  ⟨by decide, rfl,
    (c10_error_codes 3 ['a', 'b', 'c'] 7).2.2.1 (by decide) (-EINVAL) rfl⟩
